import Mathlib

/-!
Verification of the real-time media bridge in `src/main.py`
(`websocket_endpoint`, `process_and_reply`, `on_message`).

Bytes are modelled as natural numbers below 256, wire text as lists of
ASCII code points, and the side effects of the session loop as explicit
effect traces.
-/

namespace MediaBridge

/-! ## Frame Codec: base64 transcoding of `media` payloads

Models Python's `base64.b64encode` / `base64.b64decode` (RFC 4648 with
`=` padding, ASCII code 61) as used at `src/main.py` lines 266 and 335.
Input bytes are naturals below 256; output is the list of ASCII codes of
the base64 text. -/

/-- Maps a sextet value (0..63) to the ASCII code of its base64 alphabet
character: `A`-`Z`, `a`-`z`, `0`-`9`, `+`, `/`. -/
def sextetToChar (n : Nat) : Nat :=
  if n < 26 then 65 + n
  else if n < 52 then 97 + (n - 26)
  else if n < 62 then 48 + (n - 52)
  else if n = 62 then 43
  else 47

/-- Maps the ASCII code of a base64 alphabet character back to its sextet
value (inverse of `sextetToChar` on the alphabet). -/
def charToSextet (c : Nat) : Nat :=
  if 65 ≤ c ∧ c ≤ 90 then c - 65
  else if 97 ≤ c ∧ c ≤ 122 then c - 97 + 26
  else if 48 ≤ c ∧ c ≤ 57 then c - 48 + 52
  else if c = 43 then 62
  else if c = 47 then 63
  else 0

/-- Base64-encode a byte list to the ASCII codes of the base64 text,
three bytes to four characters, padding the final group with `=` (61). -/
def b64encodeBytes : List Nat → List Nat
  | [] => []
  | [a] => [sextetToChar (a / 4), sextetToChar (a % 4 * 16), 61, 61]
  | [a, b] => [sextetToChar (a / 4), sextetToChar (a % 4 * 16 + b / 16),
               sextetToChar (b % 16 * 4), 61]
  | a :: b :: c :: rest =>
      sextetToChar (a / 4) :: sextetToChar (a % 4 * 16 + b / 16) ::
      sextetToChar (b % 16 * 4 + c / 64) :: sextetToChar (c % 64) ::
      b64encodeBytes rest

/-- Base64-decode a list of ASCII codes back to bytes, four characters to
three bytes, honouring `=` padding in the final group. -/
def b64decodeBytes : List Nat → List Nat
  | w :: x :: y :: z :: rest =>
      if y = 61 then
        [charToSextet w * 4 + charToSextet x / 16]
      else if z = 61 then
        [charToSextet w * 4 + charToSextet x / 16,
         charToSextet x % 16 * 16 + charToSextet y / 4]
      else
        (charToSextet w * 4 + charToSextet x / 16) ::
        (charToSextet x % 16 * 16 + charToSextet y / 4) ::
        (charToSextet y % 4 * 64 + charToSextet z) ::
        b64decodeBytes rest
  | _ => []

theorem charToSextet_sextetToChar (n : Nat) (h : n < 64) :
    charToSextet (sextetToChar n) = n := by
  unfold sextetToChar charToSextet
  split_ifs <;> omega

theorem sextetToChar_ne_61 (n : Nat) (h : n < 64) : sextetToChar n ≠ 61 := by
  unfold sextetToChar
  split_ifs <;> omega

theorem b64_roundtrip (bs : List Nat) (h : ∀ x ∈ bs, x < 256) :
    b64decodeBytes (b64encodeBytes bs) = bs := by
  induction bs using b64encodeBytes.induct with
  | case1 =>
      rfl
  | case2 a =>
      have ha : a < 256 := h a (by simp)
      simp only [b64encodeBytes, b64decodeBytes, if_pos rfl]
      rw [charToSextet_sextetToChar (a / 4) (by omega),
          charToSextet_sextetToChar (a % 4 * 16) (by omega)]
      have e1 : a / 4 * 4 + a % 4 * 16 / 16 = a := by omega
      rw [e1]
      simp only [if_true]
  | case3 a b =>
      have ha : a < 256 := h a (by simp)
      have hb : b < 256 := h b (by simp)
      simp only [b64encodeBytes, b64decodeBytes]
      rw [if_neg (sextetToChar_ne_61 (b % 16 * 4) (by omega))]
      simp only [if_true]
      rw [charToSextet_sextetToChar (a / 4) (by omega),
          charToSextet_sextetToChar (a % 4 * 16 + b / 16) (by omega),
          charToSextet_sextetToChar (b % 16 * 4) (by omega)]
      have e1 : a / 4 * 4 + (a % 4 * 16 + b / 16) / 16 = a := by omega
      have e2 : (a % 4 * 16 + b / 16) % 16 * 16 + b % 16 * 4 / 4 = b := by omega
      rw [e1, e2]
  | case4 a b c rest ih =>
      have ha : a < 256 := h a (by simp)
      have hb : b < 256 := h b (by simp)
      have hc : c < 256 := h c (by simp)
      simp only [b64encodeBytes, b64decodeBytes]
      rw [if_neg (sextetToChar_ne_61 (b % 16 * 4 + c / 64) (by omega)),
          if_neg (sextetToChar_ne_61 (c % 64) (by omega))]
      rw [charToSextet_sextetToChar (a / 4) (by omega),
          charToSextet_sextetToChar (a % 4 * 16 + b / 16) (by omega),
          charToSextet_sextetToChar (b % 16 * 4 + c / 64) (by omega),
          charToSextet_sextetToChar (c % 64) (by omega)]
      rw [ih (fun x hx => h x (by simp [hx]))]
      simp only [List.cons.injEq, and_true]
      refine ⟨by omega, by omega, by omega⟩

/-! ## Playout Pacer and reply pipeline

Models `process_and_reply` (`src/main.py` lines 212-293): the RIFF
header strip, the 160-byte chunking loop with its 20 ms sleep after each
chunk, the trailing `reply_complete` mark, and the error handling around
the text-generation and synthesis calls. -/

/-- An outbound action of the reply pipeline: a `media` envelope (with
its base64 payload as ASCII codes), a `mark` envelope, or a suspension of
the given number of milliseconds (`asyncio.sleep`). -/
inductive Outbound where
  | media (sid : String) (payload : List Nat)
  | mark (sid : String) (name : String)
  | sleepMs (ms : Nat)
deriving DecidableEq

/-- True exactly on `media` outbound actions. -/
def Outbound.isMedia : Outbound → Bool
  | .media _ _ => true
  | _ => false

/-- True exactly on `mark` outbound actions. -/
def Outbound.isMark : Outbound → Bool
  | .mark _ _ => true
  | _ => false

/-- Total milliseconds of suspension in a list of outbound actions. -/
def totalSleep : List Outbound → Nat
  | [] => 0
  | Outbound.sleepMs n :: rest => n + totalSleep rest
  | _ :: rest => totalSleep rest

/-- Successive 160-byte slices of a buffer, the last possibly shorter:
the iteration `for i in range(0, len(audio_data), 160)` with
`chunk = audio_data[i:i+160]` (`src/main.py` lines 263-264). -/
def chunkAudio (l : List Nat) : List (List Nat) :=
  if h : l = [] then []
  else l.take 160 :: chunkAudio (l.drop 160)
termination_by l.length
decreasing_by
  have hp : 0 < l.length := List.length_pos.mpr h
  simp only [List.length_drop]
  omega

/-- The body of the chunk loop (`src/main.py` lines 263-278): for each
chunk, a `media` envelope carrying the base64-encoded chunk addressed to
`sid`, then a 20 ms suspension. -/
def playChunks (sid : String) : List (List Nat) → List Outbound
  | [] => []
  | c :: rest =>
      Outbound.media sid (b64encodeBytes c) :: Outbound.sleepMs 20 ::
      playChunks sid rest

/-- The Playout Pacer (`src/main.py` lines 260-288): chunk the buffer,
play each chunk with pacing, then send the `reply_complete` mark. -/
def playAudio (sid : String) (audio : List Nat) : List Outbound :=
  playChunks sid (chunkAudio audio) ++ [Outbound.mark sid "reply_complete"]

/-- The RIFF header strip (`src/main.py` lines 256-258): if the buffer
starts with the bytes of `RIFF` the first 44 bytes are dropped, otherwise
the buffer is unchanged. -/
def stripRiffHeader (audio : List Nat) : List Nat :=
  if audio.take 4 = [82, 73, 70, 70] then audio.drop 44 else audio

/-- The playout step guarded by `if audio_data:` (`src/main.py` lines
255-288): an empty synthesis result sends nothing; otherwise the header
is stripped and the buffer is played. -/
def playoutGuarded (sid : String) (audio_data : List Nat) : List Outbound :=
  if audio_data = [] then [] else playAudio sid (stripRiffHeader audio_data)

/-- The reply pipeline `process_and_reply` (`src/main.py` lines 212-293),
with the outcome of the external text-generation call (`genReply`) and of
the speech-synthesis call (`synthesize`) passed in as values: a missing
`stream_sid` returns immediately; an exception in either external call is
caught and the turn is skipped with no outbound action. -/
def process_and_reply (stream_sid : Option String)
    (genReply : Except String String)
    (synthesize : String → Except String (List Nat)) : List Outbound :=
  match stream_sid with
  | none => []
  | some sid =>
    match genReply with
    | Except.error _ => []
    | Except.ok ai_response =>
      match synthesize ai_response with
      | Except.error _ => []
      | Except.ok audio_data => playoutGuarded sid audio_data

/-- The transcript callback `on_message` (`src/main.py` lines 301-305):
returns the utterance scheduled for `process_and_reply`, or `none` when
the transcript is empty and nothing is scheduled. -/
def on_message (transcript : String) : Option String :=
  if transcript.length > 0 then some transcript else none

theorem isMedia_media (s : String) (p : List Nat) :
    (Outbound.media s p).isMedia = true := rfl

theorem isMedia_mark (s n : String) : (Outbound.mark s n).isMedia = false := rfl

theorem isMedia_sleepMs (n : Nat) : (Outbound.sleepMs n).isMedia = false := rfl

theorem isMark_media (s : String) (p : List Nat) :
    (Outbound.media s p).isMark = false := rfl

theorem isMark_mark (s n : String) : (Outbound.mark s n).isMark = true := rfl

theorem isMark_sleepMs (n : Nat) : (Outbound.sleepMs n).isMark = false := rfl

theorem totalSleep_nil : totalSleep [] = 0 := rfl

theorem totalSleep_cons_media (s : String) (p : List Nat) (rest : List Outbound) :
    totalSleep (Outbound.media s p :: rest) = totalSleep rest := rfl

theorem totalSleep_cons_mark (s n : String) (rest : List Outbound) :
    totalSleep (Outbound.mark s n :: rest) = totalSleep rest := rfl

theorem totalSleep_cons_sleepMs (n : Nat) (rest : List Outbound) :
    totalSleep (Outbound.sleepMs n :: rest) = n + totalSleep rest := rfl

theorem chunkAudio_length (l : List Nat) :
    (chunkAudio l).length = (l.length + 159) / 160 := by
  induction l using chunkAudio.induct with
  | case1 =>
      rw [chunkAudio]
      simp
  | case2 x h ih =>
      rw [chunkAudio, dif_neg h]
      have hp : 0 < x.length := List.length_pos.mpr h
      simp only [List.length_cons, List.length_drop] at ih ⊢
      omega

theorem playChunks_countP_isMedia (sid : String) (cs : List (List Nat)) :
    (playChunks sid cs).countP (fun e => e.isMedia) = cs.length := by
  induction cs with
  | nil => rfl
  | cons c cs ih =>
      simp [playChunks, List.countP_cons, isMedia_media, isMedia_sleepMs, ih]

theorem playChunks_countP_isMark (sid : String) (cs : List (List Nat)) :
    (playChunks sid cs).countP (fun e => e.isMark) = 0 := by
  induction cs with
  | nil => rfl
  | cons c cs ih =>
      simp [playChunks, List.countP_cons, isMark_media, isMark_sleepMs, ih]

theorem totalSleep_playChunks (sid : String) (cs : List (List Nat)) :
    totalSleep (playChunks sid cs) = 20 * cs.length := by
  induction cs with
  | nil => rfl
  | cons c cs ih =>
      simp only [playChunks, totalSleep_cons_media, totalSleep_cons_sleepMs,
        List.length_cons, ih]
      ring

theorem totalSleep_append (l1 l2 : List Outbound) :
    totalSleep (l1 ++ l2) = totalSleep l1 + totalSleep l2 := by
  induction l1 with
  | nil => simp [totalSleep_nil]
  | cons e l1 ih =>
      cases e <;>
        simp [totalSleep_cons_media, totalSleep_cons_mark,
          totalSleep_cons_sleepMs, ih, Nat.add_assoc]

theorem playChunks_media_sid (sid : String) (cs : List (List Nat)) :
    ∀ e ∈ playChunks sid cs, e.isMedia = true →
      ∃ p, e = Outbound.media sid p := by
  induction cs with
  | nil => intro e he; simp [playChunks] at he
  | cons c cs ih =>
      intro e he hm
      simp only [playChunks, List.mem_cons] at he
      rcases he with h1 | h2 | h3
      · exact ⟨b64encodeBytes c, h1⟩
      · rw [h2] at hm; simp [Outbound.isMedia] at hm
      · exact ih e h3 hm

/-! ## Session Bridge: the websocket receive loop

Models the loop of `websocket_endpoint` (`src/main.py` lines 324-340)
and its `try`/`except`/`finally` supervision (lines 297, 342-348). An
incoming text message is classified by what `json.loads` followed by
`data['event']` does with it. -/

/-- An incoming message on the duplex connection, as the receive loop
classifies it: a recognized `start`/`media`/`stop` envelope, an envelope
whose `event` tag matches no branch (e.g. `connected` or `mark`), or a
malformed message on which `json.loads` or the `data['event']` lookup
raises (e.g. the object with only a `foo` key). A `media` payload is the
list of ASCII codes of its base64 text. -/
inductive Msg where
  | start (sid : String)
  | media (payload : List Nat)
  | stop
  | other (tag : String)
  | malformed
deriving DecidableEq

/-- An observable side effect of the session handler: capturing the
stream sid at `start`, forwarding decoded audio to the Transcription Sink
(`dg_connection.send`), closing the websocket, or finishing the sink
(`dg_connection.finish`). -/
inductive Effect where
  | setSid (sid : String)
  | sinkSend (bytes : List Nat)
  | wsClose
  | sinkFinish
deriving DecidableEq

/-- The `while True` receive loop (`src/main.py` lines 324-340), run on a
list of incoming messages with the current `stream_sid`. Returns the
effects it performs. The loop ends at `stop` (`break`), on a malformed
message (the raised exception leaves the loop), or when the message
supply ends (the connection closed and `receive_text` raised). Messages
after the loop ends are never examined. -/
def receiveLoop : Option String → List Msg → List Effect
  | _, [] => []
  | _, Msg.start s :: rest => Effect.setSid s :: receiveLoop (some s) rest
  | sid, Msg.media p :: rest =>
      Effect.sinkSend (b64decodeBytes p) :: receiveLoop sid rest
  | _, Msg.stop :: _ => []
  | sid, Msg.other _ :: rest => receiveLoop sid rest
  | _, Msg.malformed :: _ => []

/-- A whole run of `websocket_endpoint` (`src/main.py` lines 200-348) on
a list of incoming messages: the receive loop's effects followed by the
`finally` teardown, which always closes the websocket and finishes the
Transcription Sink. The catch-all `except` means the handler always
returns normally, which is why this is a total function into an effect
trace. -/
def websocketSession (msgs : List Msg) : List Effect :=
  receiveLoop none msgs ++ [Effect.wsClose, Effect.sinkFinish]

/-- The lifecycle states of the Session Bridge. In the code the state is
implicit: `AWAITING_START` while the loop runs with `stream_sid = None`,
`ACTIVE` while it runs with a captured sid, `CLOSED` once the loop has
exited and the teardown runs. -/
inductive Phase where
  | AWAITING_START
  | ACTIVE
  | CLOSED
deriving DecidableEq

/-- The phase the loop is in, given the current `stream_sid`. -/
def phaseOf : Option String → Phase
  | none => Phase.AWAITING_START
  | some _ => Phase.ACTIVE

/-- The phase observed at each processed message, ending with `CLOSED`
when the loop exits (by `stop`, by a raised exception, or because the
connection ended). -/
def loopPhases : Option String → List Msg → List Phase
  | _, [] => [Phase.CLOSED]
  | sid, Msg.start s :: rest => phaseOf sid :: loopPhases (some s) rest
  | sid, Msg.media _ :: rest => phaseOf sid :: loopPhases sid rest
  | sid, Msg.stop :: _ => [phaseOf sid, Phase.CLOSED]
  | sid, Msg.other _ :: rest => phaseOf sid :: loopPhases sid rest
  | sid, Msg.malformed :: _ => [phaseOf sid, Phase.CLOSED]

/-- The phase trace of a whole session, starting before `start`. -/
def sessionPhases (msgs : List Msg) : List Phase :=
  loopPhases none msgs

/-- Number of adjacent transitions from phase `a` to phase `b` in a
phase trace. -/
def countTrans (a b : Phase) : List Phase → Nat
  | x :: y :: rest =>
      (if x = a ∧ y = b then 1 else 0) + countTrans a b (y :: rest)
  | _ => 0

theorem receiveLoop_media_append (sid : Option String) (ps : List (List Nat))
    (k : List Msg) :
    receiveLoop sid (ps.map Msg.media ++ k) =
      ps.map (fun p => Effect.sinkSend (b64decodeBytes p)) ++ receiveLoop sid k := by
  induction ps with
  | nil => simp
  | cons p ps ih => simp [receiveLoop, ih]

theorem loopPhases_media_append (s : String) (ps : List (List Nat))
    (k : List Msg) :
    loopPhases (some s) (ps.map Msg.media ++ k) =
      List.replicate ps.length Phase.ACTIVE ++ loopPhases (some s) k := by
  induction ps with
  | nil => simp
  | cons p ps ih => simp [loopPhases, ih, phaseOf, List.replicate_succ]

theorem countTrans_awaiting_from_active (n : Nat) :
    countTrans Phase.AWAITING_START Phase.ACTIVE
      (Phase.ACTIVE :: (List.replicate n Phase.ACTIVE ++ [Phase.CLOSED])) = 0 := by
  induction n with
  | zero => rfl
  | succ n ih =>
      rw [List.replicate_succ]
      simp only [List.cons_append, countTrans]
      rw [if_neg (by simp)]
      simpa using ih

theorem countTrans_active_closed_from_active (n : Nat) :
    countTrans Phase.ACTIVE Phase.CLOSED
      (Phase.ACTIVE :: (List.replicate n Phase.ACTIVE ++ [Phase.CLOSED])) = 1 := by
  induction n with
  | zero => rfl
  | succ n ih =>
      rw [List.replicate_succ]
      simp only [List.cons_append, countTrans]
      rw [if_neg (by simp)]
      simpa using ih

theorem sessionPhases_start_media_exit (s : String) (ps : List (List Nat))
    (k : List Msg)
    (hk : loopPhases (some s) k = [Phase.ACTIVE, Phase.CLOSED]) :
    sessionPhases (Msg.start s :: ps.map Msg.media ++ k) =
      Phase.AWAITING_START ::
        (List.replicate (ps.length + 1) Phase.ACTIVE ++ [Phase.CLOSED]) := by
  simp only [sessionPhases, List.cons_append]
  rw [loopPhases, loopPhases_media_append, hk, List.replicate_succ']
  simp [phaseOf, List.append_assoc]

theorem receiveLoop_start_media_exit (s : String) (ps : List (List Nat))
    (k : List Msg) (hk : receiveLoop (some s) k = []) :
    receiveLoop none (Msg.start s :: ps.map Msg.media ++ k) =
      Effect.setSid s :: ps.map (fun p => Effect.sinkSend (b64decodeBytes p)) := by
  rw [List.cons_append, receiveLoop, receiveLoop_media_append, hk, List.append_nil]

theorem websocketSession_start_media_exit (s : String) (ps : List (List Nat))
    (k : List Msg) (hk : receiveLoop (some s) k = []) :
    websocketSession (Msg.start s :: ps.map Msg.media ++ k) =
      Effect.setSid s ::
        (ps.map (fun p => Effect.sinkSend (b64decodeBytes p)) ++
          [Effect.wsClose, Effect.sinkFinish]) := by
  rw [websocketSession, receiveLoop_start_media_exit s ps k hk]
  simp

theorem count_teardown_shape (s : String) (ps : List (List Nat)) :
    (Effect.setSid s ::
      (ps.map (fun p => Effect.sinkSend (b64decodeBytes p)) ++
        [Effect.wsClose, Effect.sinkFinish])).count Effect.wsClose = 1 ∧
    (Effect.setSid s ::
      (ps.map (fun p => Effect.sinkSend (b64decodeBytes p)) ++
        [Effect.wsClose, Effect.sinkFinish])).count Effect.sinkFinish = 1 := by
  have hmap1 :
      (ps.map (fun p => Effect.sinkSend (b64decodeBytes p))).count
        Effect.wsClose = 0 :=
    List.count_eq_zero.mpr (by simp)
  have hmap2 :
      (ps.map (fun p => Effect.sinkSend (b64decodeBytes p))).count
        Effect.sinkFinish = 0 :=
    List.count_eq_zero.mpr (by simp)
  constructor <;> simp [List.count_cons, List.count_append, hmap1, hmap2]

/-! ## The claims -/

/-- Claim C1: for every synthesized audio buffer of length `L` handed to
the Playout Pacer, it emits exactly `ceil(L/160)` media envelopes, all
addressed to the session's `stream_sid`, followed by exactly one mark
envelope named `reply_complete`, and the total suspended wait is at least
`20ms * (number_of_chunks - 1)`. -/
theorem playout_pacer_envelopes (sid : String) (audio : List Nat) :
    (playAudio sid audio).countP (fun e => e.isMedia) = (audio.length + 159) / 160
  ∧ (playAudio sid audio).countP (fun e => e.isMark) = 1
  ∧ (playAudio sid audio).getLast? = some (Outbound.mark sid "reply_complete")
  ∧ 20 * ((audio.length + 159) / 160 - 1) ≤ totalSleep (playAudio sid audio)
  ∧ ∀ e ∈ playAudio sid audio, e.isMedia = true →
      ∃ p, e = Outbound.media sid p := by
  refine ⟨?_, ?_, ?_, ?_, ?_⟩
  · rw [playAudio, List.countP_append, playChunks_countP_isMedia,
      chunkAudio_length]
    simp [List.countP_cons, isMedia_mark]
  · rw [playAudio, List.countP_append, playChunks_countP_isMark]
    simp [List.countP_cons, isMark_mark]
  · rw [playAudio, List.getLast?_concat]
  · rw [playAudio, totalSleep_append, totalSleep_playChunks, chunkAudio_length,
      totalSleep_cons_mark, totalSleep_nil]
    omega
  · intro e he hm
    rw [playAudio] at he
    rcases List.mem_append.mp he with h1 | h2
    · exact playChunks_media_sid sid _ e h1 hm
    · simp only [List.mem_singleton] at h2
      rw [h2, isMedia_mark] at hm
      exact absurd hm (by simp)

/-- Witness for C1 at the 325-byte buffer of the spec's example: 3 media
envelopes, the trailing mark, and at least 40 ms of pacing. -/
theorem playout_pacer_envelopes_witness :
    (playAudio "MZ1" (List.replicate 325 0)).countP (fun e => e.isMedia) = 3 ∧
    (playAudio "MZ1" (List.replicate 325 0)).getLast? =
      some (Outbound.mark "MZ1" "reply_complete") ∧
    40 ≤ totalSleep (playAudio "MZ1" (List.replicate 325 0)) := by
  have h := playout_pacer_envelopes "MZ1" (List.replicate 325 0)
  refine ⟨?_, h.2.2.1, ?_⟩
  · have h1 := h.1
    rw [List.length_replicate] at h1
    omega
  · have h4 := h.2.2.2.1
    rw [List.length_replicate] at h4
    omega

/-- Claim C2: encoding a raw audio frame into a media envelope's base64
payload and decoding that payload reproduces the original bytes exactly:
the round-trip law `decode(encode(frame)) = frame`. -/
theorem media_payload_roundtrip (frame : List Nat) (h : ∀ x ∈ frame, x < 256) :
    b64decodeBytes (b64encodeBytes frame) = frame :=
  b64_roundtrip frame h

/-- Witness for C2 at the concrete frame `[0, 255, 7, 42, 160]`. -/
theorem media_payload_roundtrip_witness :
    (∀ x ∈ [0, 255, 7, 42, 160], x < 256) ∧
    b64decodeBytes (b64encodeBytes [0, 255, 7, 42, 160]) = [0, 255, 7, 42, 160] :=
  ⟨by decide, media_payload_roundtrip [0, 255, 7, 42, 160] (by decide)⟩

/-- Counterexample to claim C3: a `stop` envelope received while
`AWAITING_START` does close the session (the teardown closes the
websocket and finishes the sink, so the connection does not remain open),
and a `media` envelope received while `AWAITING_START` is forwarded to
the Transcription Sink. -/
theorem stop_before_start_closes_session :
    websocketSession [Msg.stop] = [Effect.wsClose, Effect.sinkFinish] ∧
    websocketSession [Msg.media []] =
      [Effect.sinkSend [], Effect.wsClose, Effect.sinkFinish] :=
  ⟨rfl, rfl⟩

/-- Claim C3, amended: before `start`, only envelopes whose `event` tag
matches no branch are ignored; a `stop` envelope while `AWAITING_START`
ends the session with the full teardown, and a `media` envelope while
`AWAITING_START` is forwarded to the Transcription Sink. -/
theorem pre_start_envelope_behavior :
    (∀ (t : String) (rest : List Msg),
       websocketSession (Msg.other t :: rest) = websocketSession rest)
  ∧ (∀ rest : List Msg,
       websocketSession (Msg.stop :: rest) = [Effect.wsClose, Effect.sinkFinish])
  ∧ (∀ (p : List Nat) (rest : List Msg),
       websocketSession (Msg.media p :: rest) =
         Effect.sinkSend (b64decodeBytes p) :: websocketSession rest) :=
  ⟨fun _ _ => rfl, fun _ => rfl, fun _ _ => rfl⟩

/-- Counterexample to claim C4: the malformed envelope (the `data['event']`
lookup raises) received while `ACTIVE` is not ignored; the session does
not remain `ACTIVE` and the subsequent media envelope is never processed —
the run tears down immediately. -/
theorem malformed_while_active_not_ignored :
    websocketSession [Msg.start "MZ1", Msg.malformed, Msg.media [97]] =
      [Effect.setSid "MZ1", Effect.wsClose, Effect.sinkFinish] ∧
    sessionPhases [Msg.start "MZ1", Msg.malformed, Msg.media [97]] =
      [Phase.AWAITING_START, Phase.ACTIVE, Phase.CLOSED] :=
  ⟨rfl, rfl⟩

/-- Claim C4, amended: a malformed envelope received while `ACTIVE` makes
the receive loop raise; the exception is caught by the session handler
(no exception surfaces, the handler returns normally), but the session
does not remain `ACTIVE`: it ends with the teardown and subsequent
envelopes are not processed. -/
theorem malformed_while_active_terminates (s : String) (ps : List (List Nat))
    (rest : List Msg) :
    websocketSession (Msg.start s :: ps.map Msg.media ++ (Msg.malformed :: rest)) =
      Effect.setSid s ::
        (ps.map (fun p => Effect.sinkSend (b64decodeBytes p)) ++
          [Effect.wsClose, Effect.sinkFinish]) :=
  websocketSession_start_media_exit s ps (Msg.malformed :: rest) rfl

/-- Claim C5: a malformed envelope (or the exception it raises) while
`ACTIVE` is caught and treated as an implicit stop: the session reaches
`CLOSED` with the full teardown — the websocket is closed and the
Transcription Sink finished, each exactly once — and the fault never
propagates out of the session handler (the run is a total function that
returns the teardown trace normally). -/
theorem active_fault_implicit_stop (s : String) (ps : List (List Nat))
    (rest : List Msg) :
    sessionPhases (Msg.start s :: ps.map Msg.media ++ (Msg.malformed :: rest)) =
      Phase.AWAITING_START ::
        (List.replicate (ps.length + 1) Phase.ACTIVE ++ [Phase.CLOSED])
  ∧ (websocketSession
      (Msg.start s :: ps.map Msg.media ++ (Msg.malformed :: rest))).count
        Effect.wsClose = 1
  ∧ (websocketSession
      (Msg.start s :: ps.map Msg.media ++ (Msg.malformed :: rest))).count
        Effect.sinkFinish = 1 := by
  refine ⟨sessionPhases_start_media_exit s ps (Msg.malformed :: rest) rfl, ?_, ?_⟩
  · rw [websocketSession_start_media_exit s ps (Msg.malformed :: rest) rfl]
    exact (count_teardown_shape s ps).1
  · rw [websocketSession_start_media_exit s ps (Msg.malformed :: rest) rfl]
    exact (count_teardown_shape s ps).2

/-- Claim C6: for every valid `start`, `media`*, `stop` sequence the
bridge passes `AWAITING_START → ACTIVE → CLOSED` with each transition
occurring exactly once, and the Transcription Sink is finished exactly
once on the exit path. -/
theorem session_lifecycle_once (s : String) (medias : List (List Nat)) :
    sessionPhases (Msg.start s :: medias.map Msg.media ++ [Msg.stop]) =
      Phase.AWAITING_START ::
        (List.replicate (medias.length + 1) Phase.ACTIVE ++ [Phase.CLOSED])
  ∧ countTrans Phase.AWAITING_START Phase.ACTIVE
      (sessionPhases (Msg.start s :: medias.map Msg.media ++ [Msg.stop])) = 1
  ∧ countTrans Phase.ACTIVE Phase.CLOSED
      (sessionPhases (Msg.start s :: medias.map Msg.media ++ [Msg.stop])) = 1
  ∧ (websocketSession
      (Msg.start s :: medias.map Msg.media ++ [Msg.stop])).count
        Effect.sinkFinish = 1 := by
  have hph := sessionPhases_start_media_exit s medias [Msg.stop] rfl
  refine ⟨hph, ?_, ?_, ?_⟩
  · rw [hph, List.replicate_succ, List.cons_append, countTrans,
      if_pos ⟨rfl, rfl⟩, countTrans_awaiting_from_active]
  · rw [hph, List.replicate_succ, List.cons_append, countTrans,
      if_neg (by simp), countTrans_active_closed_from_active]
  · rw [websocketSession_start_media_exit s medias [Msg.stop] rfl]
    exact (count_teardown_shape s medias).2

/-- Claim C7: a transcript callback with an empty transcript string never
schedules reply generation. -/
theorem empty_transcript_no_reply (t : String) (h : t.length = 0) :
    on_message t = none := by
  unfold on_message
  rw [if_neg (by omega)]

/-- Witness for C7 at the empty transcript. -/
theorem empty_transcript_no_reply_witness :
    ("" : String).length = 0 ∧ on_message "" = none :=
  ⟨rfl, empty_transcript_no_reply "" rfl⟩

/-- Claim C8: a synthesized buffer beginning with the bytes `RIFF` has a
fixed 44-byte header stripped (playout sees the buffer from byte 44
onward); a buffer not beginning with `RIFF` is passed on unchanged. -/
theorem riff_header_strip (audio : List Nat) :
    (audio.take 4 = [82, 73, 70, 70] → stripRiffHeader audio = audio.drop 44)
  ∧ (audio.take 4 ≠ [82, 73, 70, 70] → stripRiffHeader audio = audio) := by
  constructor
  · intro h
    simp [stripRiffHeader, h]
  · intro h
    simp [stripRiffHeader, h]

/-- Witness for C8 at a RIFF-prefixed buffer and a plain buffer. -/
theorem riff_header_strip_witness :
    stripRiffHeader (82 :: 73 :: 70 :: 70 :: List.replicate 41 0) =
      (82 :: 73 :: 70 :: 70 :: List.replicate 41 0).drop 44 ∧
    stripRiffHeader [1, 2, 3] = [1, 2, 3] :=
  ⟨(riff_header_strip (82 :: 73 :: 70 :: 70 :: List.replicate 41 0)).1 (by decide),
   (riff_header_strip [1, 2, 3]).2 (by decide)⟩

/-- Claim C9: when the reply pipeline fails in text generation or in
speech synthesis, the failure is non-fatal: `process_and_reply` catches
it and returns normally with no outbound envelope for that turn (the
session loop, which runs independently, is untouched). -/
theorem reply_pipeline_failure_skips_turn (sid : Option String)
    (gen : Except String String) (synth : String → Except String (List Nat)) :
    ((∃ e, gen = Except.error e) → process_and_reply sid gen synth = [])
  ∧ (∀ ai, gen = Except.ok ai → (∃ e, synth ai = Except.error e) →
      process_and_reply sid gen synth = []) := by
  constructor
  · rintro ⟨e, he⟩
    cases sid <;> simp [process_and_reply, he]
  · rintro ai rfl ⟨e, he⟩
    cases sid <;> simp [process_and_reply, he]

/-- Witness for C9: a failing generation call and a failing synthesis
call at concrete inputs, each producing no outbound action. -/
theorem reply_pipeline_failure_skips_turn_witness :
    process_and_reply (some "MZ1") (Except.error "boom")
      (fun _ => Except.ok [1, 2]) = [] ∧
    process_and_reply (some "MZ1") (Except.ok "hi")
      (fun _ => Except.error "tts") = [] :=
  ⟨(reply_pipeline_failure_skips_turn (some "MZ1") (Except.error "boom")
      (fun _ => Except.ok [1, 2])).1 ⟨"boom", rfl⟩,
   (reply_pipeline_failure_skips_turn (some "MZ1") (Except.ok "hi")
      (fun _ => Except.error "tts")).2 "hi" rfl ⟨"tts", rfl⟩⟩

/-- Claim C10: an empty synthesized audio buffer sends nothing at all:
the guarded playout step emits no media envelope and no mark envelope. -/
theorem empty_buffer_no_playout (sid : String) (audio_data : List Nat)
    (h : audio_data.length = 0) : playoutGuarded sid audio_data = [] := by
  have hnil : audio_data = [] := List.length_eq_zero.mp h
  simp [playoutGuarded, hnil]

/-- Witness for C10 at the empty buffer. -/
theorem empty_buffer_no_playout_witness :
    ([] : List Nat).length = 0 ∧ playoutGuarded "MZ1" [] = [] :=
  ⟨rfl, empty_buffer_no_playout "MZ1" [] rfl⟩

end MediaBridge
